import Mathlib

/-!
Verification of the training/evaluation control loop of `fcn8s_tensorflow.py`
(class `FCN8s`).

The development is a shallow embedding of the control-flow core of the class:
the configuration validation, the metric bookkeeping (`_initialize_metrics`),
the per-epoch training loop with its moving-average loss window, the
evaluation runner (`_evaluate` / `evaluate`), the checkpoint decision of the
save-best-only branch of `train`, the historical-best updates, and the
`save` method guard flag.

The TensorFlow computation graph is the external collaborator of the source:
its observable behaviour is abstracted into a `Graph` record that maps a
global-step value and a batch to the scalar training loss produced by running
the fused train-op, and maps a tracked metric name, the global step and the
list of batches folded since the last `metrics_reset_op` to the value of the
corresponding metric value tensor.  The streaming metric accumulators of
`tf.metrics` are modelled by the list of batches folded since the last reset
(field `folded` of `Sess`), which is exactly the information the update ops
accumulate; the reset op clears it.  Python floats are modelled as rationals,
Python generators as a stream with a cursor, and raised exceptions as the
`Except` monad.  Summary writing, the progress bar, GPU detection and the
on-disk SavedModel format are output-only effects of the source and are not
part of the state; a completed persistence call is recorded in the `saves`
log together with the global step at which it happened.
-/

namespace FCN8s

/-- Session state of the computation graph: the global step variable of
`_build_optimizer` and the contents of the streaming metric accumulators,
modelled as the list of batches folded into the update ops since the last
run of `metrics_reset_op`. -/
structure Sess (β : Type) where
  global_step : ℕ
  folded : List β

/-- A Python generator of batches: a pull-based stream with a cursor.
`next(gen)` yields `stream pos` and advances `pos`. -/
structure Gen (β : Type) where
  stream : ℕ → β
  pos : ℕ

/-- The externally supplied computation graph (the model graph provider).
`lossOf s b` is the training loss returned by running the fused
`[train_op, loss]` at global step `s` on batch `b`; `metricValue k s bs` is
the value of metric tensor `k` at global step `s` after the batches `bs`
have been folded into the accumulators since the last reset. -/
structure Graph (β : Type) where
  lossOf : ℕ → β → ℚ
  metricValue : String → ℕ → List β → ℚ

/-- The mutable state of an `FCN8s` object that the control loop touches:
the session, the `variables_updated` guard flag, the `eval_dataset`
selector, the four parallel metric lists (`metric_update_ops` and
`metric_value_tensors` are both represented by the list of tracked metric
names, `metric_tensors`, since both are populated with the tensors of the
named metric), the smoothed training loss (a Python `None` before the first
step), the best training loss, the cached global step `g_step`, and a log of
completed persistence calls. -/
structure Model (β : Type) where
  sess : Sess β
  variables_updated : Bool
  eval_dataset : String
  metric_names : List String
  metric_values : List ℚ
  best_metric_values : List ℚ
  metric_tensors : List String
  training_loss : Option ℚ
  best_training_loss : ℚ
  g_step : ℕ
  saves : List ℕ

/-- Configuration arguments of `FCN8s.train` that influence the control
flow.  `keep_prob`, the summary arguments and the writer directories only
feed the external graph or produce output and are omitted.  `metrics` is a
Python set of strings; only membership is ever used. -/
structure TrainCfg where
  epochs : ℕ
  steps_per_epoch : ℕ
  learning_rate_schedule : ℕ → ℚ
  eval_dataset : String
  eval_frequency : ℕ
  val_steps : Option ℕ
  metrics : List String
  save_during_training : Bool
  save_best_only : Bool
  save_frequency : ℕ
  monitor : String
  training_loss_display_averaging : ℕ

/-- The metrics available in the model, in the order `_initialize_metrics`
checks them. -/
def validMetricNames : List String := ["loss", "mean_iou", "accuracy"]

/-- The validation loop `for metric in metrics: if not metric in [...]`
shared by `train` and `evaluate`: raises `ValueError` on the first unknown
metric name. -/
def checkMetrics : List String → Except String Unit
  | [] => .ok ()
  | x :: xs =>
    if x ∉ validMetricNames then
      .error ("ValueError: " ++ x ++ " is not a valid metric")
    else checkMetrics xs

/-- Embedding of `FCN8s._initialize_metrics`: resets the lists
`metric_names`, `best_metric_values`, `metric_update_ops` and
`metric_value_tensors` and repopulates them from the requested metric set.
Note that the source resets exactly these four lists; `metric_values` is
left untouched. -/
def initMetrics (metrics : List String) (m : Model β) : Model β :=
  let m := { m with metric_names := [], best_metric_values := [], metric_tensors := [] }
  let m :=
    if "loss" ∈ metrics then
      { m with metric_names := m.metric_names ++ ["loss"],
               best_metric_values := m.best_metric_values ++ [(999999999 : ℚ)/10],
               metric_tensors := m.metric_tensors ++ ["loss"] }
    else m
  let m :=
    if "mean_iou" ∈ metrics then
      { m with metric_names := m.metric_names ++ ["mean_iou"],
               best_metric_values := m.best_metric_values ++ [0],
               metric_tensors := m.metric_tensors ++ ["mean_iou"] }
    else m
  if "accuracy" ∈ metrics then
    { m with metric_names := m.metric_names ++ ["accuracy"],
             best_metric_values := m.best_metric_values ++ [0],
             metric_tensors := m.metric_tensors ++ ["accuracy"] }
  else m

/-- Python `list.index`: position of the first occurrence, `ValueError` if
the element is absent. -/
def pyIndex (xs : List String) (x : String) : Except String ℕ :=
  match xs.findIdx? (fun y => y = x) with
  | some i => .ok i
  | none => .error ("ValueError: " ++ x ++ " is not in list")

/-- Python list subscription `xs[i]`: `IndexError` when out of range. -/
def pyGet (xs : List ℚ) (i : ℕ) : Except String ℚ :=
  match xs.get? i with
  | some v => .ok v
  | none => .error "IndexError: list index out of range"

/-- The last `K` elements of a list (all of it when it is shorter), i.e. the
contents of a `deque(maxlen=K)` that was fed the list element by element. -/
def lastWindow (K : ℕ) (l : List ℚ) : List ℚ := l.drop (l.length - K)

/-- Appending to a `deque(maxlen=K)`: push right, silently dropping from the
left when the window is full. -/
def dequeAppend (K : ℕ) (hist : List ℚ) (x : ℚ) : List ℚ :=
  lastWindow K (hist ++ [x])

/-- Arithmetic mean, `np.mean`.  (On the empty list `np.mean` yields NaN;
the model yields `0/0 = 0`.  The training loop only takes means of nonempty
windows.) -/
def listMean (l : List ℚ) : ℚ := l.sum / l.length

/-- One training step of the inner loop of `FCN8s.train` (lines 509-541):
pull one batch from the generator, run the fused train-op (advancing the
graph global step by one and producing the step loss), set
`variables_updated`, cache the new global step in `g_step`, append the step
loss to the loss window and store its mean as the smoothed training loss.
The learning rate and keep probability only feed the graph. -/
def trainStep (G : Graph β) (K : ℕ) (lr : ℚ) (m : Model β) (g : Gen β)
    (hist : List ℚ) : Model β × Gen β × List ℚ :=
  let current_loss := G.lossOf m.sess.global_step (g.stream g.pos)
  let sess := { m.sess with global_step := m.sess.global_step + 1 }
  let hist := dequeAppend K hist current_loss
  ({ m with sess := sess, g_step := sess.global_step, variables_updated := true,
            training_loss := some (listMean hist) },
   { g with pos := g.pos + 1 }, hist)

/-- The inner loop `for train_step in tr` of `FCN8s.train`: run the given
number of training steps, recomputing the learning rate from the schedule
after every step (one-step lag), threading the loss window. -/
def stepsLoop (G : Graph β) (sched : ℕ → ℚ) (K : ℕ) :
    ℕ → ℚ → Model β → Gen β → List ℚ → Model β × Gen β × List ℚ × ℚ
  | 0, lr, m, g, hist => (m, g, hist, lr)
  | n+1, lr, m, g, hist =>
    let r := trainStep G K lr m g hist
    stepsLoop G sched K n (sched r.1.g_step) r.1 r.2.1 r.2.2

/-- The accumulation loop of `FCN8s._evaluate`: pull one batch per
iteration and run the tracked metric update ops on it with the labels of
the batch (the fold is recorded in `folded`). -/
def foldBatches : ℕ → Sess β → Gen β → Sess β × Gen β
  | 0, s, g => (s, g)
  | n+1, s, g =>
    foldBatches n { s with folded := s.folded ++ [g.stream g.pos] }
      { g with pos := g.pos + 1 }

/-- Embedding of `FCN8s._evaluate`: run `metrics_reset_op`, fold exactly
`num_batches` batches from the generator into the tracked metric update
ops, then read all tracked metric value tensors into `metric_values`. -/
def evalRunner (G : Graph β) (num_batches : ℕ) (m : Model β) (g : Gen β) :
    Model β × Gen β :=
  let s0 : Sess β := { m.sess with folded := [] }
  let r := foldBatches num_batches s0 g
  let values := m.metric_tensors.map (fun k => G.metricValue k r.1.global_step r.1.folded)
  ({ m with sess := r.1, metric_values := values }, r.2)

/-- Embedding of `FCN8s.evaluate`: validate the metric names, then
initialize the metric lists and run `_evaluate`. -/
def evaluate (G : Graph β) (metrics : List String) (num_batches : ℕ)
    (m : Model β) (g : Gen β) : Except String (Model β × Gen β) :=
  match checkMetrics metrics with
  | .error e => .error e
  | .ok _ => .ok (evalRunner G num_batches (initMetrics metrics m) g)

/-- The fallback path of the save-best-only branch (lines 580-584 of the
source): look the monitored name up in `metric_names` (raising `ValueError`
when absent), then compare the evaluated metric value against its best;
note that the accuracy comparison tests membership of the misspelled string
`"accuracry"`. -/
def saveFallback (monitor : String) (metric_names : List String)
    (metric_values best_metric_values : List ℚ) : Except String Bool :=
  match pyIndex metric_names monitor with
  | .error e => .error e
  | .ok i =>
    if monitor = "loss" then
      match pyGet metric_values i, pyGet best_metric_values i with
      | .error e, _ => .error e
      | _, .error e => .error e
      | .ok v, .ok b => .ok (decide (v < b))
    else if monitor = "accuracry" ∨ monitor = "mean_iou" then
      match pyGet metric_values i, pyGet best_metric_values i with
      | .error e, _ => .error e
      | _, .error e => .error e
      | .ok v, .ok b => .ok (decide (v > b))
    else .ok false

/-- The checkpoint decision of `FCN8s.train` (lines 573-590): when not
save-best-only, always save; otherwise, when monitoring plain loss that is
not in the tracked set and the smoothed training loss strictly improved,
save, and in every other case fall through to `saveFallback`.  Comparing a
Python `None` smoothed loss raises. -/
def saveDecision (save_best_only : Bool) (monitor : String)
    (metric_names : List String) (metric_values best_metric_values : List ℚ)
    (training_loss : Option ℚ) (best_training_loss : ℚ) : Except String Bool :=
  if save_best_only then
    if monitor = "loss" ∧ "loss" ∉ metric_names then
      match training_loss with
      | none => .error "TypeError: NoneType is not comparable to float"
      | some tl =>
        if tl < best_training_loss then .ok true
        else saveFallback monitor metric_names metric_values best_metric_values
    else saveFallback monitor metric_names metric_values best_metric_values
  else .ok true

/-- Embedding of `FCN8s.save`: when no variable was updated since the last
save, print a warning and return without persisting; otherwise persist
(recorded in the `saves` log with the cached global step) and clear the
flag. -/
def modelSave (m : Model β) : Model β :=
  if m.variables_updated then
    { m with saves := m.saves ++ [m.g_step], variables_updated := false }
  else m

/-- The periodic-evaluation block of the epoch loop (lines 547-561): on
epochs where the metric set is nonempty and `epoch % eval_frequency == 0`,
run `_evaluate` on the generator selected by `eval_dataset` (the training
generator for `steps_per_epoch` batches, or the validation generator for
`val_steps` batches). -/
def evalBlock (G : Graph β) (cfg : TrainCfg) (epoch : ℕ) (m : Model β)
    (tg : Gen β) (vg : Option (Gen β)) :
    Except String (Model β × Gen β × Option (Gen β)) :=
  if ¬cfg.metrics.isEmpty ∧ epoch % cfg.eval_frequency = 0 then
    if cfg.eval_dataset = "train" then
      let r := evalRunner G cfg.steps_per_epoch m tg
      .ok (r.1, r.2, vg)
    else if cfg.eval_dataset = "val" then
      match vg, cfg.val_steps with
      | some v, some n =>
        let r := evalRunner G n m v
        .ok (r.1, tg, some r.2)
      | _, _ => .error "TypeError: val_generator or val_steps is missing"
    else .error "NameError: data_generator is not defined"
  else .ok (m, tg, vg)

/-- The periodic-checkpoint block of the epoch loop (lines 571-598): on
epochs where saving is enabled and `epoch % save_frequency == 0`, consult
`saveDecision` and persist on a positive decision. -/
def saveBlock (cfg : TrainCfg) (epoch : ℕ) (m : Model β) :
    Except String (Model β) :=
  if cfg.save_during_training ∧ epoch % cfg.save_frequency = 0 then
    match saveDecision cfg.save_best_only cfg.monitor m.metric_names
        m.metric_values m.best_metric_values m.training_loss
        m.best_training_loss with
    | .error e => .error e
    | .ok true => .ok (modelSave m)
    | .ok false => .ok m
  else .ok m

/-- Line 604-605 of the source: after each epoch, update the best training
loss if the smoothed training loss is strictly lower.  Comparing a Python
`None` smoothed loss raises. -/
def updateBestLoss (m : Model β) : Except String (Model β) :=
  match m.training_loss with
  | none => .error "TypeError: NoneType is not comparable to float"
  | some tl =>
    .ok (if tl < m.best_training_loss then { m with best_training_loss := tl } else m)

/-- Lines 609-613 of the source: walk the tracked metric names and update
each best value per its comparator; the accuracy comparison again tests the
misspelled string `"accuracry"`.  The index `i` subscripts the full
`metric_values` list. -/
def updateBestMetrics (metric_values : List ℚ) :
    ℕ → List String → List ℚ → Except String (List ℚ)
  | _, [], bests => .ok bests
  | _, _ :: _, [] => .error "IndexError: list index out of range"
  | i, name :: names, best :: bests =>
    let step : Except String ℚ :=
      if name = "loss" then
        match pyGet metric_values i with
        | .error e => .error e
        | .ok v => .ok (if v < best then v else best)
      else if name = "accuracry" ∨ name = "mean_iou" then
        match pyGet metric_values i with
        | .error e => .error e
        | .ok v => .ok (if v > best then v else best)
      else .ok best
    match step with
    | .error e => .error e
    | .ok b =>
      match updateBestMetrics metric_values (i+1) names bests with
      | .error e => .error e
      | .ok rest => .ok (b :: rest)

/-- The best-value bookkeeping of the epoch loop (lines 604-613): always
update the best training loss, and on epochs with
`epoch % eval_frequency == 0` update the tracked best metric values. -/
def bestBlock (cfg : TrainCfg) (epoch : ℕ) (m : Model β) :
    Except String (Model β) :=
  match updateBestLoss m with
  | .error e => .error e
  | .ok m =>
    if epoch % cfg.eval_frequency = 0 then
      match updateBestMetrics m.metric_values 0 m.metric_names m.best_metric_values with
      | .error e => .error e
      | .ok bests => .ok { m with best_metric_values := bests }
    else .ok m

/-- One epoch of `FCN8s.train`: a freshly created loss window (the
`deque` of line 504 is local to the epoch), `steps_per_epoch` training
steps, then the evaluation, checkpoint and best-update blocks. -/
def epochBody (G : Graph β) (cfg : TrainCfg) (epoch : ℕ) (lr : ℚ)
    (m : Model β) (tg : Gen β) (vg : Option (Gen β)) :
    Except String (Model β × Gen β × Option (Gen β) × ℚ) :=
  let r := stepsLoop G cfg.learning_rate_schedule
    cfg.training_loss_display_averaging cfg.steps_per_epoch lr m tg []
  match evalBlock G cfg epoch r.1 r.2.1 vg with
  | .error e => .error e
  | .ok rv =>
    match saveBlock cfg epoch rv.1 with
    | .error e => .error e
    | .ok m2 =>
      match bestBlock cfg epoch m2 with
      | .error e => .error e
      | .ok m3 => .ok (m3, rv.2.1, rv.2.2, r.2.2.2)

/-- The epoch loop `for epoch in range(1, epochs+1)` of `FCN8s.train`:
`remaining` epochs left, current epoch number `epoch`. -/
def epochsLoop (G : Graph β) (cfg : TrainCfg) :
    ℕ → ℕ → ℚ → Model β → Gen β → Option (Gen β) →
    Except String (Model β × Gen β × Option (Gen β))
  | _, 0, _, m, tg, vg => .ok (m, tg, vg)
  | epoch, remaining+1, lr, m, tg, vg =>
    match epochBody G cfg epoch lr m tg vg with
    | .error e => .error e
    | .ok r => epochsLoop G cfg (epoch+1) remaining r.2.2.2 r.1 r.2.1 r.2.2.1

/-- The body of `FCN8s.train` after validation (lines 484-613): store the
dataset selector, read the global step into `g_step`, compute the initial
learning rate, initialize the metric lists and run the epoch loop starting
at epoch 1. -/
def trainBody (G : Graph β) (cfg : TrainCfg) (m : Model β) (tg : Gen β)
    (vg : Option (Gen β)) :
    Except String (Model β × Gen β × Option (Gen β)) :=
  let m := { m with eval_dataset := cfg.eval_dataset }
  let m := { m with g_step := m.sess.global_step }
  let lr := cfg.learning_rate_schedule m.g_step
  let m := initMetrics cfg.metrics m
  epochsLoop G cfg 1 cfg.epochs lr m tg vg

/-- Embedding of `FCN8s.train` (lines 465-613): the four configuration
checks of lines 471-482, in source order, then the training body.  Every
check happens before the first batch is pulled from either generator and
before the first training step. -/
def train (G : Graph β) (cfg : TrainCfg) (m : Model β) (tg : Gen β)
    (vg : Option (Gen β)) :
    Except String (Model β × Gen β × Option (Gen β)) :=
  if cfg.eval_dataset ∉ (["train", "val"] : List String) then
    .error "ValueError: eval_dataset must be one of train or val"
  else if cfg.eval_dataset = "val" ∧ (vg.isNone ∨ cfg.val_steps.isNone) then
    .error "ValueError: when eval_dataset is val, a val_generator and val_steps must be passed"
  else
    match checkMetrics cfg.metrics with
    | .error e => .error e
    | .ok _ =>
      if cfg.monitor ∉ cfg.metrics ∧ cfg.monitor ≠ "loss" then
        .error "ValueError: the monitored metric is not in metrics and is not being computed"
      else trainBody G cfg m tg vg

/-- True exactly on `Except.ok`. -/
def isOk : Except String α → Bool
  | .ok _ => true
  | .error _ => false

/-- True exactly on `Except.error`. -/
def isError : Except String α → Bool
  | .error _ => true
  | .ok _ => false

/-- The sequence of step losses the graph produces along a stretch of
training steps that starts at global step `s` with the generator cursor at
`p`: step `i` of the stretch runs at global step `s + i` on batch
`st (p + i)`. -/
def lossSeq (G : Graph β) (s : ℕ) (st : ℕ → β) (p : ℕ) (n : ℕ) : List ℚ :=
  (List.range n).map (fun i => G.lossOf (s + i) (st (p + i)))

/-- The step losses produced during one epoch that starts in model state
`m` with generator `g`. -/
def epochLosses (G : Graph β) (m : Model β) (g : Gen β) (n : ℕ) : List ℚ :=
  lossSeq G m.sess.global_step g.stream g.pos n

/-- A concrete generator over `ℕ` batches: batch `i` is `i`. -/
def natStream : Gen ℕ := { stream := fun i => i, pos := 0 }

/-- A concrete graph whose train-op at global step `s` reports loss `s + 1`
(so an epoch starting at step 0 produces losses 1, 2, 3, ...) and whose
metric tensors all evaluate to `0.85`. -/
def gSeq : Graph ℕ :=
  { lossOf := fun s _ => (s : ℚ) + 1, metricValue := fun _ _ _ => (17 : ℚ)/20 }

/-- A freshly constructed `FCN8s` object: global step 0, no variables
updated, empty metric lists, smoothed loss `None`, best training loss
`99999999.9`. -/
def freshModel : Model ℕ :=
  { sess := { global_step := 0, folded := [] }, variables_updated := false,
    eval_dataset := "train", metric_names := [], metric_values := [],
    best_metric_values := [], metric_tensors := [], training_loss := none,
    best_training_loss := (999999999 : ℚ)/10, g_step := 0, saves := [] }

/-- A model carrying a current metric value left over from a previous
`train` or `evaluate` invocation (everything else fresh). -/
def staleModel : Model ℕ := { freshModel with metric_values := [9] }

/-- A configuration that tracks and monitors plain loss, saves best-only on
every epoch, and evaluates only every second epoch, so that the checkpoint
decision of epoch 1 runs before any evaluation of this invocation. -/
def cfgC3 : TrainCfg :=
  { epochs := 1, steps_per_epoch := 1, learning_rate_schedule := fun _ => 0,
    eval_dataset := "train", eval_frequency := 2, val_steps := none,
    metrics := ["loss"], save_during_training := true, save_best_only := true,
    save_frequency := 1, monitor := "loss", training_loss_display_averaging := 3 }

/-- A plain valid configuration: two epochs of three steps, no tracked
metrics, no checkpointing. -/
def cfgOk : TrainCfg :=
  { epochs := 2, steps_per_epoch := 3, learning_rate_schedule := fun _ => 1,
    eval_dataset := "train", eval_frequency := 5, val_steps := none,
    metrics := [], save_during_training := false, save_best_only := true,
    save_frequency := 5, monitor := "loss", training_loss_display_averaging := 3 }

/-! Helper lemmas about the embedding. -/

theorem map_range_succ_shift {γ : Type} (fn : ℕ → γ) (k : ℕ) :
    (List.range (k+1)).map fn
      = fn 0 :: (List.range k).map (fun j => fn (j+1)) := by
  rw [List.range_succ_eq_map, List.map_cons, List.map_map]
  rfl

theorem lastWindow_nil (K : ℕ) : lastWindow K ([] : List ℚ) = [] := by
  simp [lastWindow]

theorem lastWindow_append (K : ℕ) (a b : List ℚ) :
    lastWindow K (lastWindow K a ++ b) = lastWindow K (a ++ b) := by
  unfold lastWindow
  rw [← List.drop_append_of_le_length (Nat.sub_le a.length K), List.drop_drop]
  congr 1
  simp only [List.length_append, List.length_drop]
  omega

theorem lossSeq_succ (G : Graph β) (s : ℕ) (st : ℕ → β) (p n : ℕ) :
    lossSeq G s st p (n+1) = G.lossOf s (st p) :: lossSeq G (s+1) st (p+1) n := by
  unfold lossSeq
  rw [map_range_succ_shift]
  congr 1
  apply List.map_congr_left
  intro a ha
  have h1 : s + (a+1) = s + 1 + a := by omega
  have h2 : p + (a+1) = p + 1 + a := by omega
  simp [h1, h2]

theorem trainStep_gs (G : Graph β) (K : ℕ) (lr : ℚ) (m : Model β) (g : Gen β)
    (hist : List ℚ) :
    (trainStep G K lr m g hist).1.sess.global_step = m.sess.global_step + 1 := by
  simp [trainStep]

theorem trainStep_tl_irrel (G : Graph β) (K : ℕ) (lr : ℚ) (m : Model β)
    (g : Gen β) (hist : List ℚ) (t : Option ℚ) :
    trainStep G K lr { m with training_loss := t } g hist
      = trainStep G K lr m g hist := rfl

theorem stepsLoop_gs (G : Graph β) (sched : ℕ → ℚ) (K : ℕ) :
    ∀ (n : ℕ) (lr : ℚ) (m : Model β) (g : Gen β) (hist : List ℚ),
    (stepsLoop G sched K n lr m g hist).1.sess.global_step
      = m.sess.global_step + n := by
  intro n
  induction n with
  | zero => intro lr m g hist; simp [stepsLoop]
  | succ n ih =>
    intro lr m g hist
    simp only [stepsLoop]
    rw [ih]
    simp [trainStep]
    omega

theorem stepsLoop_hist (G : Graph β) (sched : ℕ → ℚ) (K : ℕ) :
    ∀ (n : ℕ) (acc : List ℚ) (lr : ℚ) (m : Model β) (g : Gen β),
    (stepsLoop G sched K n lr m g (lastWindow K acc)).2.2.1
      = lastWindow K (acc ++ lossSeq G m.sess.global_step g.stream g.pos n) := by
  intro n
  induction n with
  | zero =>
    intro acc lr m g
    simp [stepsLoop, lossSeq]
  | succ n ih =>
    intro acc lr m g
    simp only [stepsLoop]
    have hstep : (trainStep G K lr m g (lastWindow K acc)).2.2
        = lastWindow K (acc ++ [G.lossOf m.sess.global_step (g.stream g.pos)]) := by
      simp only [trainStep, dequeAppend]
      rw [lastWindow_append]
    rw [hstep]
    rw [ih (acc ++ [G.lossOf m.sess.global_step (g.stream g.pos)])]
    rw [lossSeq_succ, List.append_assoc, List.singleton_append]
    simp [trainStep]

theorem stepsLoop_loss (G : Graph β) (sched : ℕ → ℚ) (K : ℕ) :
    ∀ (n : ℕ) (lr : ℚ) (m : Model β) (g : Gen β) (hist : List ℚ), 1 ≤ n →
    (stepsLoop G sched K n lr m g hist).1.training_loss
      = some (listMean ((stepsLoop G sched K n lr m g hist).2.2.1)) := by
  intro n
  induction n with
  | zero => intro lr m g hist h; omega
  | succ n ih =>
    intro lr m g hist _
    cases n with
    | zero => simp [stepsLoop, trainStep]
    | succ k =>
      simp only [stepsLoop]
      exact ih _ _ _ _ (by omega)

theorem foldBatches_gs : ∀ (n : ℕ) (s : Sess β) (g : Gen β),
    (foldBatches n s g).1.global_step = s.global_step := by
  intro n
  induction n with
  | zero => intro s g; rfl
  | succ n ih => intro s g; simp only [foldBatches]; rw [ih]

theorem foldBatches_stream : ∀ (n : ℕ) (s : Sess β) (g : Gen β),
    (foldBatches n s g).2.stream = g.stream := by
  intro n
  induction n with
  | zero => intro s g; rfl
  | succ n ih => intro s g; simp only [foldBatches]; rw [ih]

theorem foldBatches_pos : ∀ (n : ℕ) (s : Sess β) (g : Gen β),
    (foldBatches n s g).2.pos = g.pos + n := by
  intro n
  induction n with
  | zero => intro s g; rfl
  | succ n ih => intro s g; simp only [foldBatches]; rw [ih]; simp; omega

theorem map_range_shift {α : Type} (h : ℕ → α) (p n : ℕ) :
    (List.range (n+1)).map (fun i => h (p + i))
      = h p :: (List.range n).map (fun i => h (p + 1 + i)) := by
  rw [map_range_succ_shift]
  congr 1
  apply List.map_congr_left
  intro a ha
  have h1 : p + (a+1) = p + 1 + a := by omega
  simp [h1]

theorem foldBatches_folded : ∀ (n : ℕ) (s : Sess β) (g : Gen β),
    (foldBatches n s g).1.folded
      = s.folded ++ (List.range n).map (fun i => g.stream (g.pos + i)) := by
  intro n
  induction n with
  | zero => intro s g; simp [foldBatches]
  | succ n ih =>
    intro s g
    simp only [foldBatches]
    rw [ih]
    rw [map_range_shift]
    simp [List.append_assoc]

theorem checkMetrics_error {ms : List String} {x : String} (hx : x ∈ ms)
    (hbad : x ∉ validMetricNames) : isError (checkMetrics ms) = true := by
  induction ms with
  | nil => cases hx
  | cons y ys ih =>
    simp only [checkMetrics]
    split
    · rfl
    · rename_i hy
      cases hx with
      | head => exact absurd (not_not.mp hy) hbad
      | tail _ hmem => exact ih hmem

theorem initMetrics_sess (ms : List String) (m : Model β) :
    (initMetrics ms m).sess = m.sess := by
  simp only [initMetrics]
  split_ifs <;> rfl

theorem evalBlock_ok_gs {G : Graph β} {cfg : TrainCfg} {epoch : ℕ}
    {m : Model β} {tg : Gen β} {vg : Option (Gen β)}
    {r : Model β × Gen β × Option (Gen β)}
    (h : evalBlock G cfg epoch m tg vg = .ok r) :
    r.1.sess.global_step = m.sess.global_step := by
  unfold evalBlock at h
  split at h
  · split at h
    · cases h
      simp [evalRunner, foldBatches_gs]
    · split at h
      · split at h
        · cases h
          simp [evalRunner, foldBatches_gs]
        · cases h
      · cases h
  · cases h
    rfl

theorem saveBlock_ok_sess {cfg : TrainCfg} {epoch : ℕ} {m m2 : Model β}
    (h : saveBlock cfg epoch m = .ok m2) : m2.sess = m.sess := by
  unfold saveBlock at h
  split at h
  · split at h
    · cases h
    · cases h
      unfold modelSave
      split <;> rfl
    · cases h
      rfl
  · cases h
    rfl

theorem bestBlock_ok_sess {cfg : TrainCfg} {epoch : ℕ} {m m2 : Model β}
    (h : bestBlock cfg epoch m = .ok m2) : m2.sess = m.sess := by
  unfold bestBlock at h
  split at h
  · cases h
  · rename_i m1 heq
    have hm1 : m1.sess = m.sess := by
      unfold updateBestLoss at heq
      split at heq
      · cases heq
      · cases heq
        split <;> rfl
    split at h
    · split at h
      · cases h
      · cases h
        exact hm1
    · cases h
      exact hm1

theorem epochBody_ok_gs {G : Graph β} {cfg : TrainCfg} {epoch : ℕ} {lr : ℚ}
    {m : Model β} {tg : Gen β} {vg : Option (Gen β)}
    {r : Model β × Gen β × Option (Gen β) × ℚ}
    (h : epochBody G cfg epoch lr m tg vg = .ok r) :
    r.1.sess.global_step = m.sess.global_step + cfg.steps_per_epoch := by
  simp only [epochBody] at h
  split at h
  · cases h
  · rename_i rv hev
    split at h
    · cases h
    · rename_i m2 hsv
      split at h
      · cases h
      · rename_i m3 hbb
        cases h
        show m3.sess.global_step = _
        rw [bestBlock_ok_sess hbb, saveBlock_ok_sess hsv, evalBlock_ok_gs hev,
          stepsLoop_gs]

theorem epochsLoop_ok_gs {G : Graph β} {cfg : TrainCfg} :
    ∀ {remaining epoch : ℕ} {lr : ℚ} {m : Model β} {tg : Gen β}
    {vg : Option (Gen β)} {r : Model β × Gen β × Option (Gen β)},
    epochsLoop G cfg epoch remaining lr m tg vg = .ok r →
    r.1.sess.global_step = m.sess.global_step + remaining * cfg.steps_per_epoch := by
  intro remaining
  induction remaining with
  | zero =>
    intro epoch lr m tg vg r h
    cases h
    simp
  | succ n ih =>
    intro epoch lr m tg vg r h
    simp only [epochsLoop] at h
    split at h
    · cases h
    · rename_i re heq
      rw [ih h, epochBody_ok_gs heq, Nat.succ_mul]
      omega

theorem train_ok_gs {G : Graph β} {cfg : TrainCfg} {m : Model β} {tg : Gen β}
    {vg : Option (Gen β)} {r : Model β × Gen β × Option (Gen β)}
    (h : train G cfg m tg vg = .ok r) :
    r.1.sess.global_step = m.sess.global_step + cfg.epochs * cfg.steps_per_epoch := by
  unfold train at h
  split at h
  · cases h
  · split at h
    · cases h
    · split at h
      · cases h
      · split at h
        · cases h
        · unfold trainBody at h
          rw [epochsLoop_ok_gs h, initMetrics_sess]

/-! Claim theorems. -/

/-- C1.  The claim states that on a save epoch under save-best-only, the
model is saved iff the monitored metric strictly improved, in particular
that monitoring an accuracy-like metric with best 0.8 and current 0.85
saves.  The code evaluates otherwise: the accuracy branch of the decision
tests membership of the misspelled string `"accuracry"`, so monitoring
`"accuracy"` never saves — here current 0.85 strictly improves on best 0.8
and the decision is still `false`.  The same input with monitor
`"mean_iou"` is decided `true`, isolating the misspelling. -/
theorem c1_accuracy_monitor_never_saves :
    saveDecision true "accuracy" ["accuracy"] [(17 : ℚ)/20] [(4 : ℚ)/5]
      (some 1) 0 = .ok false
  ∧ saveDecision true "mean_iou" ["mean_iou"] [(17 : ℚ)/20] [(4 : ℚ)/5]
      (some 1) 0 = .ok true := by
  constructor <;>
    norm_num +decide [saveDecision, saveFallback, pyIndex, pyGet, List.findIdx?]

/-- C2.  The claim states that with save-best-only and monitor `"loss"`,
the checkpoint decision always compares the smoothed training loss against
the best training loss and never the evaluated loss metric, regardless of
whether `"loss"` is tracked.  The code evaluates otherwise: when `"loss"`
is tracked, the decision takes the fallback index path and compares the
evaluated loss metric (here smoothed 1 improves on best 2, yet the decision
is `false` because evaluated 5 does not improve on metric best 3); and when
`"loss"` is untracked and the smoothed loss did not improve, the fallback
`list.index` lookup raises `ValueError`. -/
theorem c2_loss_monitor_fallback_path :
    saveDecision true "loss" ["loss"] [5] [3] (some 1) 2 = .ok false
  ∧ (1 : ℚ) < 2
  ∧ isError (saveDecision true "loss" [] [] [] (some 5) 2) = true := by
  refine ⟨?_, by norm_num, ?_⟩ <;>
    norm_num +decide [saveDecision, saveFallback, pyIndex, pyGet,
      List.findIdx?, isError]

/-- C3, counterexample.  The claim states that all of the MetricSet state,
including the current accumulated metric values, is reinitialized at the
start of every `train` or `evaluate` invocation, so that no current metric
value from a previous invocation is observable afterwards.  It is false:
`_initialize_metrics` leaves `metric_values` untouched, and `staleModel`
and `freshModel`, which differ only in the `metric_values` left behind by a
previous invocation, make the very same `train` call save a checkpoint
driven by the stale value 9 in one case and raise `IndexError` in the
other. -/
theorem c3_stale_metric_values_observable :
    (initMetrics ["loss"] staleModel).metric_values = [9]
  ∧ Except.map (fun r => r.1.saves) (train gSeq cfgC3 staleModel natStream none)
      = .ok [1]
  ∧ isError (train gSeq cfgC3 freshModel natStream none) = true := by
  refine ⟨?_, ?_, ?_⟩ <;>
    norm_num +decide [train, trainBody, epochsLoop, epochBody, stepsLoop,
      trainStep, evalBlock, saveBlock, bestBlock, saveDecision, saveFallback,
      modelSave, updateBestLoss, updateBestMetrics, initMetrics, checkMetrics,
      validMetricNames, pyIndex, pyGet, List.findIdx?, dequeAppend, lastWindow,
      listMean, cfgC3, staleModel, freshModel, natStream, gSeq, Except.map,
      isError]

/-- C3, amended.  At the start of every `train` or `evaluate` invocation,
`_initialize_metrics` rebuilds `metric_names`, `best_metric_values` and the
update-op/value-tensor lists from the requested metric set alone (in the
fixed order loss, mean_iou, accuracy, with initial bests 99999999.9, 0, 0)
and leaves every other field — in particular the current `metric_values` of
the previous invocation — unchanged until the next evaluation run
overwrites them. -/
theorem c3_initMetrics_resets_all_but_current_values (ms : List String)
    (m : Model β) :
    (initMetrics ms m).metric_names
      = (if "loss" ∈ ms then ["loss"] else [])
        ++ (if "mean_iou" ∈ ms then ["mean_iou"] else [])
        ++ (if "accuracy" ∈ ms then ["accuracy"] else [])
  ∧ (initMetrics ms m).best_metric_values
      = (if "loss" ∈ ms then [(999999999 : ℚ)/10] else [])
        ++ (if "mean_iou" ∈ ms then [(0 : ℚ)] else [])
        ++ (if "accuracy" ∈ ms then [(0 : ℚ)] else [])
  ∧ (initMetrics ms m).metric_tensors = (initMetrics ms m).metric_names
  ∧ (initMetrics ms m).metric_values = m.metric_values
  ∧ (initMetrics ms m).sess = m.sess
  ∧ (initMetrics ms m).training_loss = m.training_loss
  ∧ (initMetrics ms m).best_training_loss = m.best_training_loss
  ∧ (initMetrics ms m).variables_updated = m.variables_updated
  ∧ (initMetrics ms m).g_step = m.g_step
  ∧ (initMetrics ms m).saves = m.saves
  ∧ (initMetrics ms m).eval_dataset = m.eval_dataset := by
  simp only [initMetrics]
  split_ifs <;> simp

/-- C4.  The claim states that on evaluation epochs every tracked best
metric value is updated per its comparator, higher-is-better for accuracy
and mean IoU.  The code evaluates otherwise for accuracy: the best-update
loop of lines 609-613 tests membership of the misspelled string
`"accuracry"`, so a tracked accuracy of 0.85 does not replace the best
value 0, while the identical input tracked as mean_iou does.  The
best-training-loss half of the claim does hold: a smoothed loss of 1 below
the best replaces it, independent of any checkpoint decision. -/
theorem c4_accuracy_best_never_updated :
    updateBestMetrics [(17 : ℚ)/20] 0 ["accuracy"] [0] = .ok [0]
  ∧ updateBestMetrics [(17 : ℚ)/20] 0 ["mean_iou"] [0] = .ok [(17 : ℚ)/20]
  ∧ Except.map (fun mm => mm.best_training_loss)
      (updateBestLoss { staleModel with training_loss := some 1 }) = .ok 1 := by
  refine ⟨?_, ?_, ?_⟩ <;>
    norm_num +decide [updateBestMetrics, updateBestLoss, pyGet, staleModel,
      freshModel, Except.map]

/-- C5.  Each configuration error of `train` — unknown metric name, invalid
`eval_dataset` selector, validation mode without both a validation
generator and a batch count, and a monitored metric that is neither
`"loss"` nor in the metric set — makes `train` raise for every graph and
every generator contents, so the error is raised before any training step
executes and before any batch is pulled; and `evaluate` raises for an
unknown metric name for every generator contents, before pulling any
batch. -/
theorem c5_config_errors_raise_before_any_step (G : Graph β) (cfg : TrainCfg)
    (m : Model β) (tg g : Gen β) (vg : Option (Gen β)) (ms : List String)
    (nb : ℕ) (x : String) :
    (cfg.eval_dataset ∉ (["train", "val"] : List String) →
      isError (train G cfg m tg vg) = true)
  ∧ (cfg.eval_dataset = "val" → (vg.isNone ∨ cfg.val_steps.isNone) →
      isError (train G cfg m tg vg) = true)
  ∧ (x ∈ cfg.metrics → x ∉ validMetricNames →
      isError (train G cfg m tg vg) = true)
  ∧ (cfg.monitor ∉ cfg.metrics → cfg.monitor ≠ "loss" →
      isError (train G cfg m tg vg) = true)
  ∧ (x ∈ ms → x ∉ validMetricNames →
      isError (evaluate G ms nb m g) = true) := by
  refine ⟨?_, ?_, ?_, ?_, ?_⟩
  · intro h
    unfold train
    rw [if_pos h]
    rfl
  · intro h1 h2
    unfold train
    rw [if_neg (by simp [h1]), if_pos ⟨h1, h2⟩]
    rfl
  · intro hx hbad
    unfold train
    split
    · rfl
    · split
      · rfl
      · cases hcm : checkMetrics cfg.metrics with
        | error e => rfl
        | ok u =>
          have := checkMetrics_error hx hbad
          rw [hcm] at this
          simp [isError] at this
  · intro h1 h2
    unfold train
    split
    · rfl
    · split
      · rfl
      · cases hcm : checkMetrics cfg.metrics with
        | error e => rfl
        | ok u =>
          rw [if_pos ⟨h1, h2⟩]
          rfl
  · intro hx hbad
    unfold evaluate
    cases hcm : checkMetrics ms with
    | error e => rfl
    | ok u =>
      have := checkMetrics_error hx hbad
      rw [hcm] at this
      simp [isError] at this

/-- C5, witness: each of the five error scenarios instantiated at a
concrete configuration. -/
theorem c5_config_errors_witness :
    isError (train gSeq { cfgOk with eval_dataset := "test" } freshModel
      natStream none) = true
  ∧ isError (train gSeq { cfgOk with eval_dataset := "val" } freshModel
      natStream none) = true
  ∧ isError (train gSeq { cfgOk with metrics := ["foo"] } freshModel
      natStream none) = true
  ∧ isError (train gSeq { cfgOk with monitor := "mean_iou" } freshModel
      natStream none) = true
  ∧ isError (evaluate gSeq ["foo"] 5 freshModel natStream) = true := by
  refine ⟨?_, ?_, ?_, ?_, ?_⟩
  · exact (c5_config_errors_raise_before_any_step gSeq _ freshModel natStream
      natStream none [] 0 "x").1 (by decide)
  · exact (c5_config_errors_raise_before_any_step gSeq _ freshModel natStream
      natStream none [] 0 "x").2.1 rfl (Or.inl rfl)
  · exact (c5_config_errors_raise_before_any_step gSeq _ freshModel natStream
      natStream none [] 0 "foo").2.2.1 (by decide) (by decide)
  · exact (c5_config_errors_raise_before_any_step gSeq _ freshModel natStream
      natStream none [] 0 "x").2.2.2.1 (by decide) (by decide)
  · exact (c5_config_errors_raise_before_any_step gSeq cfgOk freshModel
      natStream natStream none ["foo"] 5 "foo").2.2.2.2 (by decide) (by decide)

/-- C7.  When no parameter update has happened since the previous save
(`variables_updated` is false), `save` returns without persisting anything
and without changing any state (the source prints a warning and returns
early, before the SavedModel builder runs); when the flag is set, a
completed save appends to the persistence log and clears the flag; and
every training step sets the flag. -/
theorem c7_save_guard_flag (m : Model β) (G : Graph β) (K : ℕ) (lr : ℚ)
    (g : Gen β) (hist : List ℚ) :
    (m.variables_updated = false → modelSave m = m)
  ∧ (m.variables_updated = true →
      (modelSave m).saves = m.saves ++ [m.g_step]
      ∧ (modelSave m).variables_updated = false)
  ∧ (trainStep G K lr m g hist).1.variables_updated = true := by
  refine ⟨?_, ?_, ?_⟩
  · intro h
    simp [modelSave, h]
  · intro h
    simp [modelSave, h]
  · simp [trainStep]

/-- C7, witness: the guard at a model with a clear flag, the
append-and-clear behaviour at a model with a set flag, and the flag set by
a concrete training step. -/
theorem c7_save_guard_flag_witness :
    modelSave freshModel = freshModel
  ∧ (modelSave { freshModel with variables_updated := true, g_step := 7 }).saves
      = { freshModel with variables_updated := true, g_step := 7 }.saves ++ [7]
  ∧ (modelSave { freshModel with variables_updated := true, g_step := 7
      }).variables_updated = false
  ∧ (trainStep gSeq 3 0 freshModel natStream []).1.variables_updated = true := by
  refine ⟨?_, ?_, ?_, ?_⟩
  · exact (c7_save_guard_flag freshModel gSeq 3 0 natStream []).1 rfl
  · exact ((c7_save_guard_flag
      { freshModel with variables_updated := true, g_step := 7 }
      gSeq 3 0 natStream []).2.1 rfl).1
  · exact ((c7_save_guard_flag
      { freshModel with variables_updated := true, g_step := 7 }
      gSeq 3 0 natStream []).2.1 rfl).2
  · exact (c7_save_guard_flag freshModel gSeq 3 0 natStream []).2.2

/-- C6.  Within one epoch, after `n` steps the tracked training loss is the
arithmetic mean of the trailing window of the last (up to) `K` step losses,
where `K` is `training_loss_display_averaging`: a simple moving average over
a fixed-size window. -/
theorem c6_smoothed_loss_is_trailing_window_mean (G : Graph β)
    (sched : ℕ → ℚ) (K : ℕ) (lr : ℚ) (m : Model β) (g : Gen β) (n : ℕ)
    (hn : 1 ≤ n) (hK : 1 ≤ K) :
    (stepsLoop G sched K n lr m g []).1.training_loss
      = some (listMean (lastWindow K (epochLosses G m g n))) := by
  have h2 := stepsLoop_hist G sched K n [] lr m g
  rw [lastWindow_nil, List.nil_append] at h2
  rw [stepsLoop_loss G sched K n lr m g [] hn, h2]
  rfl

/-- C6, witness: with window size 3 and a graph producing the losses
1, 2, 3, 4, the smoothed values after steps 1, 2, 3, 4 are the claimed
1.0, 1.5, 2.0, 3.0. -/
theorem c6_smoothed_loss_witness :
    (stepsLoop gSeq (fun _ => 0) 3 1 0 freshModel natStream []).1.training_loss
      = some (listMean (lastWindow 3 (epochLosses gSeq freshModel natStream 1)))
  ∧ (stepsLoop gSeq (fun _ => 0) 3 2 0 freshModel natStream []).1.training_loss
      = some (listMean (lastWindow 3 (epochLosses gSeq freshModel natStream 2)))
  ∧ (stepsLoop gSeq (fun _ => 0) 3 3 0 freshModel natStream []).1.training_loss
      = some (listMean (lastWindow 3 (epochLosses gSeq freshModel natStream 3)))
  ∧ (stepsLoop gSeq (fun _ => 0) 3 4 0 freshModel natStream []).1.training_loss
      = some (listMean (lastWindow 3 (epochLosses gSeq freshModel natStream 4)))
  ∧ listMean (lastWindow 3 (epochLosses gSeq freshModel natStream 1)) = 1
  ∧ listMean (lastWindow 3 (epochLosses gSeq freshModel natStream 2)) = 3/2
  ∧ listMean (lastWindow 3 (epochLosses gSeq freshModel natStream 3)) = 2
  ∧ listMean (lastWindow 3 (epochLosses gSeq freshModel natStream 4)) = 3 := by
  refine ⟨?_, ?_, ?_, ?_, ?_, ?_, ?_, ?_⟩
  · exact c6_smoothed_loss_is_trailing_window_mean gSeq (fun _ => 0) 3 0
      freshModel natStream 1 (by decide) (by decide)
  · exact c6_smoothed_loss_is_trailing_window_mean gSeq (fun _ => 0) 3 0
      freshModel natStream 2 (by decide) (by decide)
  · exact c6_smoothed_loss_is_trailing_window_mean gSeq (fun _ => 0) 3 0
      freshModel natStream 3 (by decide) (by decide)
  · exact c6_smoothed_loss_is_trailing_window_mean gSeq (fun _ => 0) 3 0
      freshModel natStream 4 (by decide) (by decide)
  all_goals
    norm_num [epochLosses, lossSeq, lastWindow, listMean, List.range_succ,
      gSeq, freshModel, natStream]

/-- C8.  When `train` returns normally, the graph global step ends at its
initial value plus `steps_per_epoch * epochs` — the loop runs exactly
`epochs` epochs of exactly `steps_per_epoch` steps and then returns, with
no early-stopping path — and each individual training step advances the
global step by exactly 1. -/
theorem c8_exact_epochs_and_steps (G : Graph β) (cfg : TrainCfg)
    (m : Model β) (tg : Gen β) (vg : Option (Gen β)) (K : ℕ) (lr : ℚ)
    (g : Gen β) (hist : List ℚ) :
    (isOk (train G cfg m tg vg) = true →
      Except.map (fun r => r.1.sess.global_step) (train G cfg m tg vg)
        = .ok (m.sess.global_step + cfg.steps_per_epoch * cfg.epochs))
  ∧ (trainStep G K lr m g hist).1.sess.global_step = m.sess.global_step + 1 := by
  constructor
  · intro hok
    cases h : train G cfg m tg vg with
    | error e => rw [h] at hok; simp [isOk] at hok
    | ok r =>
      refine congrArg Except.ok ?_
      show r.1.sess.global_step = _
      rw [train_ok_gs h]
      ring
  · simp [trainStep]

/-- C8, witness: a concrete successful run of two epochs of three steps
ends with global step 6. -/
theorem c8_exact_epochs_and_steps_witness :
    Except.map (fun r => r.1.sess.global_step)
      (train gSeq cfgOk freshModel natStream none)
      = .ok (freshModel.sess.global_step + cfgOk.steps_per_epoch * cfgOk.epochs)
  ∧ (trainStep gSeq 3 1 freshModel natStream []).1.sess.global_step
      = freshModel.sess.global_step + 1 := by
  constructor
  · exact (c8_exact_epochs_and_steps gSeq cfgOk freshModel natStream none 3 1
      natStream []).1
      (by norm_num +decide [train, trainBody, epochsLoop, epochBody, stepsLoop,
        trainStep, evalBlock, saveBlock, bestBlock, updateBestLoss,
        updateBestMetrics, initMetrics, checkMetrics, validMetricNames,
        dequeAppend, lastWindow, listMean, cfgOk, freshModel, natStream, gSeq,
        isOk])
  · exact (c8_exact_epochs_and_steps gSeq cfgOk freshModel natStream none 3 1
      natStream []).2

/-- C9.  One call of the evaluation runner `_evaluate` with `num_batches`
batches first resets the metric accumulators, pulls exactly `num_batches`
batches from the data source in order, folds exactly those batches into the
accumulators, and reads the final metric values only afterwards (each value
is a function of all `num_batches` folded batches); it leaves the training
state — global step, smoothed training loss, best training loss, the
guard flag, the metric bests and the persistence log — unchanged.  (The
learning rate is a local variable of `train` that `_evaluate` never
receives.) -/
theorem c9_evaluation_runner_frame (G : Graph β) (n : ℕ) (m : Model β)
    (g : Gen β) :
    (evalRunner G n m g).2.pos = g.pos + n
  ∧ (evalRunner G n m g).2.stream = g.stream
  ∧ (evalRunner G n m g).1.sess.global_step = m.sess.global_step
  ∧ (evalRunner G n m g).1.sess.folded
      = (List.range n).map (fun i => g.stream (g.pos + i))
  ∧ (evalRunner G n m g).1.metric_values
      = m.metric_tensors.map (fun k =>
          G.metricValue k m.sess.global_step
            ((List.range n).map (fun i => g.stream (g.pos + i))))
  ∧ (evalRunner G n m g).1.g_step = m.g_step
  ∧ (evalRunner G n m g).1.training_loss = m.training_loss
  ∧ (evalRunner G n m g).1.best_training_loss = m.best_training_loss
  ∧ (evalRunner G n m g).1.variables_updated = m.variables_updated
  ∧ (evalRunner G n m g).1.saves = m.saves
  ∧ (evalRunner G n m g).1.metric_names = m.metric_names
  ∧ (evalRunner G n m g).1.best_metric_values = m.best_metric_values
  ∧ (evalRunner G n m g).1.metric_tensors = m.metric_tensors
  ∧ (evalRunner G n m g).1.eval_dataset = m.eval_dataset := by
  refine ⟨?_, ?_, ?_, ?_, ?_, ?_, ?_, ?_, ?_, ?_, ?_, ?_, ?_, ?_⟩ <;>
    simp [evalRunner, foldBatches_gs, foldBatches_pos, foldBatches_stream,
      foldBatches_folded]

/-- C10.  The trailing loss window is recreated empty at the start of every
epoch and never spans an epoch boundary: after the first step of an epoch
the smoothed training loss equals that single step loss, and the result of
a whole epoch with at least one step is independent of the smoothed
training loss carried in from earlier epochs. -/
theorem c10_loss_window_reset_each_epoch (G : Graph β) (sched : ℕ → ℚ)
    (K : ℕ) (lr : ℚ) (m : Model β) (g : Gen β) (cfg : TrainCfg) (epoch : ℕ)
    (tg : Gen β) (vg : Option (Gen β)) (t1 t2 : Option ℚ) :
    (1 ≤ K →
      (stepsLoop G sched K 1 lr m g []).1.training_loss
        = some (G.lossOf m.sess.global_step (g.stream g.pos)))
  ∧ (1 ≤ cfg.steps_per_epoch →
      epochBody G cfg epoch lr { m with training_loss := t1 } tg vg
        = epochBody G cfg epoch lr { m with training_loss := t2 } tg vg) := by
  constructor
  · intro hK
    have hz : 1 - K = 0 := by omega
    simp [stepsLoop, trainStep, dequeAppend, lastWindow, hz, listMean]
  · intro hs
    obtain ⟨k, hk⟩ := Nat.exists_eq_add_of_le hs
    simp only [epochBody]
    rw [hk, Nat.add_comm 1 k]
    simp only [stepsLoop, trainStep_tl_irrel]

/-- C10, witness: after the single step of a one-step epoch the smoothed
loss is that step loss, and a concrete epoch body is unchanged when the
carried-in smoothed loss is replaced. -/
theorem c10_loss_window_reset_witness :
    (stepsLoop gSeq (fun _ => 0) 3 1 0 freshModel natStream
        []).1.training_loss
      = some (gSeq.lossOf freshModel.sess.global_step
          (natStream.stream natStream.pos))
  ∧ epochBody gSeq cfgC3 1 0 { freshModel with training_loss := some 5 }
        natStream none
      = epochBody gSeq cfgC3 1 0 { freshModel with training_loss := none }
        natStream none := by
  constructor
  · exact (c10_loss_window_reset_each_epoch gSeq (fun _ => 0) 3 0 freshModel
      natStream cfgC3 1 natStream none (some 5) none).1 (by decide)
  · exact (c10_loss_window_reset_each_epoch gSeq (fun _ => 0) 3 0 freshModel
      natStream cfgC3 1 natStream none (some 5) none).2 (by decide)

end FCN8s
